import Mathlib

/-!
Shallow embedding of the invoice-extraction engine of `src/pdf_service.py`
(Chilean electronic-invoice PDF data extraction), together with theorems
settling the frozen claims about that code.

Modelling conventions:
* Python strings are modelled as `List Char` (`PyStr`).  Embeddings work on
  the character repertoire that actually occurs in this code and its data
  (ASCII plus the Spanish letters used by the source literals).
* Python `re` patterns are embedded through a small regular-expression AST
  (`RE`) with a backtracking matcher `reM` that follows Python search
  semantics: leftmost match, first-alternative preference, greedy and lazy
  quantifiers, capture groups recording the consumed span.  Each source
  pattern is transcribed node by node below its source line.
* Fallible Python code is embedded with `Option`/`Except`: an exception is
  an explicit `none`/`.error` value which the embedded `try/except` blocks
  inspect exactly where the source catches it.
* External libraries (PyMuPDF page rendering, zxing barcode decoding, lxml
  string-to-tree parsing, PyPDF2 text extraction) are boundaries: their
  *outputs* are the model inputs.  A rendered-and-decoded page is a
  `PageScan` (failure or list of decoded payloads), and a decoded payload
  string is represented by its XML parse result (`Option Xml`, `none` when
  `etree.fromstring` raises).
-/

abbrev PyStr := List Char

/-- Python whitespace (ASCII repertoire), as used by `str.strip` and `\s`. -/
def isPySpace (c : Char) : Bool :=
  c = ' ' || c = '\t' || c = '\n' || c = '\r' || c = '\x0b' || c = '\x0c'

/-- Python `str.strip()` on the modelled repertoire. -/
def pyStrip (l : PyStr) : PyStr :=
  ((l.dropWhile isPySpace).reverse.dropWhile isPySpace).reverse

/-- Python truthiness of a string: nonempty. -/
def pyTruthy (l : PyStr) : Bool := !l.isEmpty

/-- Python truthiness of an optional string (`None` and `""` are falsy). -/
def pyTruthyOpt : Option PyStr → Bool
  | none => false
  | some l => pyTruthy l

/-- Python `str.isdigit()` on the ASCII repertoire: nonempty, all digits. -/
def pyIsDigit (l : PyStr) : Bool := !l.isEmpty && l.all Char.isDigit

/-- Numeric value of a digit string (what `int` returns on it). -/
def natOfDigits (l : PyStr) : Nat :=
  l.foldl (fun n c => n * 10 + (c.toNat - 48)) 0

/-- Python `int(s)` on the character repertoire reachable at the call sites
of this file (digit/dot/comma strings already stripped): succeeds exactly on
nonempty all-digit strings; `none` models the `ValueError` raised otherwise.
(The wider Python integer-literal syntax — signs, underscores, surrounding
whitespace — cannot reach these call sites.) -/
def pyIntParse (l : PyStr) : Option Nat :=
  if pyIsDigit l then some (natOfDigits l) else none

/-- Lower-casing for the repertoire used by the source (`str.lower`). -/
def pyLowerChar (c : Char) : Char :=
  if c = 'Á' then 'á' else if c = 'É' then 'é' else if c = 'Í' then 'í'
  else if c = 'Ó' then 'ó' else if c = 'Ú' then 'ú' else if c = 'Ñ' then 'ñ'
  else if c = 'Ü' then 'ü' else c.toLower

/-- Upper-casing for the repertoire used by the source (`str.upper`). -/
def pyUpperChar (c : Char) : Char :=
  if c = 'á' then 'Á' else if c = 'é' then 'É' else if c = 'í' then 'Í'
  else if c = 'ó' then 'Ó' else if c = 'ú' then 'Ú' else if c = 'ñ' then 'Ñ'
  else if c = 'ü' then 'Ü' else c.toUpper

def pyLower (l : PyStr) : PyStr := l.map pyLowerChar
def pyUpper (l : PyStr) : PyStr := l.map pyUpperChar

/-- Python `needle in hay` substring test. -/
def hasSubstr (needle hay : PyStr) : Bool :=
  match hay with
  | [] => needle.isEmpty
  | _ :: t => needle.isPrefixOf hay || hasSubstr needle t

/-- Python `\w` on the modelled repertoire: ASCII alphanumerics, underscore,
and the Spanish letters occurring in this document class. -/
def isPyWord (c : Char) : Bool :=
  c.isAlphanum || c = '_' ||
  c = 'á' || c = 'é' || c = 'í' || c = 'ó' || c = 'ú' || c = 'ñ' || c = 'ü' ||
  c = 'Á' || c = 'É' || c = 'Í' || c = 'Ó' || c = 'Ú' || c = 'Ñ' || c = 'Ü'

/-! ## A small Python-`re` engine

`RE` is the pattern AST; `reM` is a CPS backtracking matcher.  Alternation
tries the left branch first, greedy quantifiers prefer consuming, lazy ones
prefer the continuation — exactly Python backtracking order.  `fuel` only
bounds recursion depth; it is chosen large enough for every evaluation in
this file (depth is bounded by pattern size times subject length). -/

inductive RE where
  | eps : RE
  | cls : (Char → Bool) → RE
  | seq : RE → RE → RE
  | alt : RE → RE → RE
  | star : Bool → RE → RE
  | group : Nat → RE → RE

/-- Captured groups: index paired with consumed span, most recent first. -/
abbrev Caps := List (Nat × PyStr)

def reM {α : Type} : Nat → RE → PyStr → Caps → (PyStr → Caps → Option α) → Option α
  | 0, _, _, _, _ => none
  | _ + 1, .eps, s, caps, k => k s caps
  | _ + 1, .cls p, s, caps, k =>
      match s with
      | [] => none
      | c :: rest => if p c then k rest caps else none
  | fuel + 1, .seq a b, s, caps, k =>
      reM fuel a s caps (fun s1 caps1 => reM fuel b s1 caps1 k)
  | fuel + 1, .alt a b, s, caps, k =>
      match reM fuel a s caps k with
      | some r => some r
      | none => reM fuel b s caps k
  | fuel + 1, .star lazy a, s, caps, k =>
      if lazy then
        match k s caps with
        | some r => some r
        | none =>
            reM fuel a s caps (fun s1 caps1 =>
              if s1.length < s.length then reM fuel (.star true a) s1 caps1 k
              else none)
      else
        match reM fuel a s caps (fun s1 caps1 =>
            if s1.length < s.length then reM fuel (.star false a) s1 caps1 k
            else k s1 caps1) with
        | some r => some r
        | none => k s caps
  | fuel + 1, .group i a, s, caps, k =>
      reM fuel a s caps (fun s1 caps1 =>
        k s1 ((i, s.take (s.length - s1.length)) :: caps1))

/-- Recursion-depth budget: generous bound on backtracking depth for the
patterns of this file (pattern sizes are < 100 nodes). -/
def fuelFor (s : PyStr) : Nat := (s.length + 2) * 400

/-- Run a pattern anchored at the start of `s` (Python `re.match` at one
position): leftmost-preference match, returning the unmatched remainder and
the captures. -/
def reRun (re : RE) (s : PyStr) : Option (PyStr × Caps) :=
  reM (fuelFor s) re s [] (fun s1 caps => some (s1, caps))

/-- Python `re.match(pattern, s)` viewed as a Bool (`is not None`). -/
def reMatchStart (re : RE) (s : PyStr) : Bool := (reRun re s).isSome

/-- Python `re.search`: try each start position left to right; on success
return (captures, remainder after the match, matched length). -/
def reSearch (re : RE) : PyStr → Option (Caps × PyStr × Nat)
  | [] =>
    match reRun re [] with
    | some (rest, caps) => some (caps, rest, 0)
    | none => none
  | c :: t =>
    match reRun re (c :: t) with
    | some (rest, caps) => some (caps, rest, (c :: t).length - rest.length)
    | none => reSearch re t

/-- Value of capture group `i` (most recent completion wins, Python-style);
for the patterns in this file the group always participates in a match. -/
def getCap (i : Nat) (caps : Caps) : PyStr :=
  (((caps.find? (fun p => p.1 = i)).map Prod.snd)).getD []

/-- Python `re.findall` restricted to single-group patterns (all `findall`
calls in the source have exactly one group): list of group-1 captures of the
non-overlapping matches, scanning left to right.  The `fuel` argument makes
the recursion structural; `s.length + 1` always suffices since every search
round either ends or strictly shortens the subject. -/
def reFindAllAux (re : RE) : Nat → PyStr → List PyStr
  | 0, _ => []
  | fuel + 1, s =>
    match reSearch re s with
    | none => []
    | some (caps, rest, mlen) =>
      getCap 1 caps ::
        (if mlen = 0 then
          match rest with
          | [] => []
          | _ :: t => reFindAllAux re fuel t
        else reFindAllAux re fuel rest)

def reFindAll (re : RE) (s : PyStr) : List PyStr :=
  reFindAllAux re (s.length + 1) s

/-! ### Pattern combinators (transcription helpers for the source regexes) -/

/-- Literal character. -/
def RE.ch (c : Char) : RE := .cls (fun x => x = c)

/-- Case-insensitive literal character (`re.IGNORECASE`), using the source
case pairs of the repertoire. -/
def RE.chI (c : Char) : RE :=
  .cls (fun x => x = pyLowerChar c || x = pyUpperChar c)

def RE.seqs : List RE → RE
  | [] => .eps
  | r :: rs => .seq r (RE.seqs rs)

/-- Literal string. -/
def RE.lit (s : String) : RE := RE.seqs (s.data.map RE.ch)

/-- Case-insensitive literal string. -/
def RE.litI (s : String) : RE := RE.seqs (s.data.map RE.chI)

/-- Greedy `?`. -/
def RE.opt (r : RE) : RE := .alt r .eps

/-- Greedy `+`. -/
def RE.plus (r : RE) : RE := .seq r (.star false r)

/-- Exactly `n` copies (`{n}`). -/
def RE.rep : Nat → RE → RE
  | 0, _ => .eps
  | n + 1, r => .seq r (RE.rep n r)

/-- Greedy optional chain: up to `n` further copies, preferring more. -/
def RE.optChain : Nat → RE → RE
  | 0, _ => .eps
  | n + 1, r => .alt (.seq r (RE.optChain n r)) .eps

/-- Greedy counted range `{lo,hi}`. -/
def RE.repRange (lo hi : Nat) (r : RE) : RE :=
  .seq (RE.rep lo r) (RE.optChain (hi - lo) r)

/-- Class `\d` (ASCII repertoire). -/
def RE.dig : RE := .cls Char.isDigit

/-- Class `\s`. -/
def RE.sp : RE := .cls isPySpace

/-- Class `\w` (modelled repertoire). -/
def RE.wrd : RE := .cls isPyWord

/-- Dot `.` without `re.DOTALL`: anything but a newline. -/
def RE.dot : RE := .cls (fun c => c != '\n')

/-- Dot `.` under `re.DOTALL`: anything. -/
def RE.dotAll : RE := .cls (fun _ => true)

/-! ### The source patterns (src/pdf_service.py), transcribed node by node -/

/-- Class `[\d\.]`. -/
def clsDigDot : RE := .cls (fun c => c.isDigit || c = '.')

/-- Class `[\dkK]`. -/
def clsDigKk : RE := .cls (fun c => c.isDigit || c = 'k' || c = 'K')

/-- Class `[\d\.,]`. -/
def clsAmt : RE := .cls (fun c => c.isDigit || c = '.' || c = ',')

/-- Class `[:\s\n]`. -/
def clsColonSpace : RE := .cls (fun c => c = ':' || isPySpace c)

/-- Class `[A-Z0-9]`. -/
def clsUpperDigit : RE := .cls (fun c => c.isUpper || c.isDigit)

/-- Group `([\d\.]{8,12}-[\dkK])` — the capture shared by the three RUT patterns. -/
def rutCapture : RE :=
  .group 1 (RE.seqs [RE.repRange 8 12 clsDigDot, RE.ch '-', clsDigKk])

/-- Line 165: `R\.?U\.?T\.?[:\s\n]+([\d\.]{8,12}-[\dkK])` (findall). -/
def patRutLabeled : RE :=
  RE.seqs [RE.ch 'R', RE.opt (RE.ch '.'), RE.ch 'U', RE.opt (RE.ch '.'),
    RE.ch 'T', RE.opt (RE.ch '.'), RE.plus clsColonSpace, rutCapture]

/-- Line 166: `RUT\.:\s*([\d\.]{8,12}-[\dkK])`. -/
def patRutDotColon : RE :=
  RE.seqs [RE.lit "RUT.:", .star false RE.sp, rutCapture]

/-- Line 167: `Señor\(es\).*?RUT\s*([\d\.]{8,12}-[\dkK])` with `re.DOTALL`. -/
def patSenoresRut : RE :=
  RE.seqs [RE.lit "Señor(es)", .star true RE.dotAll, RE.lit "RUT",
    .star false RE.sp, rutCapture]

/-- Line 169: `Señor\s?\(es\)\s*\n(.*?)\n`. -/
def patSenoresLine : RE :=
  RE.seqs [RE.lit "Señor", RE.opt RE.sp, RE.lit "(es)", .star false RE.sp,
    RE.ch '\n', .group 1 (.star true RE.dot), RE.ch '\n']

/-- Line 170: `Señor\(es\)(.*?)\s*RUT` (run on text with newlines replaced). -/
def patSenoresInline : RE :=
  RE.seqs [RE.lit "Señor(es)", .group 1 (.star true RE.dot),
    .star false RE.sp, RE.lit "RUT"]

/-- Line 174: `R\.?U\.?T` with `re.IGNORECASE` (used with `re.match`). -/
def patRutStart : RE :=
  RE.seqs [RE.chI 'R', RE.opt (RE.ch '.'), RE.chI 'U', RE.opt (RE.ch '.'),
    RE.chI 'T']

/-- Line 178: `Fecha\s+de\s+Vencimiento.*?\n(.*?)\n` with `re.DOTALL`. -/
def patFechaVenc : RE :=
  RE.seqs [RE.lit "Fecha", RE.plus RE.sp, RE.lit "de", RE.plus RE.sp,
    RE.lit "Vencimiento", .star true RE.dotAll, RE.ch '\n',
    .group 1 (.star true RE.dotAll), RE.ch '\n']

/-- Line 181: `\d{2}-\d{2}-\d{4}` (used with `re.match`). -/
def patDDMMYYYY : RE :=
  RE.seqs [RE.rep 2 RE.dig, RE.ch '-', RE.rep 2 RE.dig, RE.ch '-',
    RE.rep 4 RE.dig]

/-- Line 185 (first): `(?:Folio N°|Nº)\s*(\d+)`. -/
def patFolio : RE :=
  RE.seqs [.alt (RE.lit "Folio N°") (RE.lit "Nº"), .star false RE.sp,
    .group 1 (RE.plus RE.dig)]

/-- Line 185 (second): `(?:FACTURA ELECTRÓNICA)\s*Nº\s*(\d+)`
with `re.IGNORECASE`. -/
def patFolioFactura : RE :=
  RE.seqs [RE.litI "FACTURA ELECTRÓNICA", .star false RE.sp, RE.litI "Nº",
    .star false RE.sp, .group 1 (RE.plus RE.dig)]

/-- Line 187: `Fecha Emisión\s*(\d{1,2} de \w+ de \d{4})`. -/
def patFechaEmision : RE :=
  RE.seqs [RE.lit "Fecha Emisión", .star false RE.sp,
    .group 1 (RE.seqs [RE.repRange 1 2 RE.dig, RE.lit " de ", RE.plus RE.wrd,
      RE.lit " de ", RE.rep 4 RE.dig])]

/-- Line 188: `Fecha Documento\s*(\d{1,2}-\d{1,2}-\d{4})`. -/
def patFechaDocumento : RE :=
  RE.seqs [RE.lit "Fecha Documento", .star false RE.sp,
    .group 1 (RE.seqs [RE.repRange 1 2 RE.dig, RE.ch '-',
      RE.repRange 1 2 RE.dig, RE.ch '-', RE.rep 4 RE.dig])]

/-- Line 190: `(?:Monto Total|Total)\s*\$?\s*([\d\.,]+)` (findall). -/
def patMontoTotal : RE :=
  RE.seqs [.alt (RE.lit "Monto Total") (RE.lit "Total"), .star false RE.sp,
    RE.opt (RE.ch '$'), .star false RE.sp, .group 1 (RE.plus clsAmt)]

/-- Line 193: `DETALLES\n.*?\n\d\s*(.*?)\n` with `re.DOTALL`. -/
def patDetalles : RE :=
  RE.seqs [RE.lit "DETALLES", RE.ch '\n', .star true RE.dotAll, RE.ch '\n',
    RE.dig, .star false RE.sp, .group 1 (.star true RE.dotAll), RE.ch '\n']

/-- Line 195: `\d\s+[A-Z0-9]+\s+(.*?)\s+\d+\s+UN`. -/
def patGlosaRow : RE :=
  RE.seqs [RE.dig, RE.plus RE.sp, RE.plus clsUpperDigit, RE.plus RE.sp,
    .group 1 (.star true RE.dot), RE.plus RE.sp, RE.plus RE.dig,
    RE.plus RE.sp, RE.lit "UN"]

/-- Line 142: `(\d{1,2}) de (\w+) de (\d{4})` (searched on the lowered
date string). -/
def patLongDate : RE :=
  RE.seqs [.group 1 (RE.repRange 1 2 RE.dig), RE.lit " de ",
    .group 2 (RE.plus RE.wrd), RE.lit " de ", .group 3 (RE.rep 4 RE.dig)]

/-! ## Data model

The parsing functions of the source return nested Python dicts; these are
embedded as records with the same field names.  Values that the source may
leave as `int` or `str` (folio, monto_total) get the sum type `IntOrStr`. -/

inductive IntOrStr where
  | int (n : Nat) : IntOrStr
  | str (s : PyStr) : IntOrStr
deriving DecidableEq

structure Documento where
  tipo_dte : Option PyStr
  folio : Option IntOrStr
  fecha_emision : Option PyStr
  monto_total : Option IntOrStr
deriving DecidableEq

structure Party where
  rut : Option PyStr
  razon_social : Option PyStr
deriving DecidableEq

/-- The dict built by `parse_ted_payload` (lines 84-99): exactly the keys
`documento`, `emisor`, `receptor`. -/
structure InfoFactura where
  documento : Documento
  emisor : Party
  receptor : Party
deriving DecidableEq

/-- The dict built by `parse_text_payload` (lines 202-218): the same three
keys plus `glosa`. -/
structure InfoText where
  documento : Documento
  emisor : Party
  receptor : Party
  glosa : Option PyStr
deriving DecidableEq

/-! ## Stamp payload parser (`parse_ted_payload`, lines 58-100)

The XML tree produced by `lxml.etree.fromstring` is modelled directly: an
element has a tag, optional text (the text before its first child), and a
list of children.  A decoded payload string is represented by its parse
result — `none` when `etree.fromstring` raises (line 67). -/

mutual
inductive Xml where
  | el (tag : String) (text : Option PyStr) (children : XmlForest)
inductive XmlForest where
  | nil : XmlForest
  | cons (head : Xml) (tail : XmlForest) : XmlForest
end

def XmlForest.ofList : List Xml → XmlForest
  | [] => .nil
  | x :: t => .cons x (XmlForest.ofList t)

def XmlForest.toList : XmlForest → List Xml
  | .nil => []
  | .cons x t => x :: XmlForest.toList t

def Xml.tag : Xml → String
  | .el t _ _ => t

def Xml.text : Xml → Option PyStr
  | .el _ t _ => t

def Xml.children : Xml → List Xml
  | .el _ _ c => c.toList

mutual
/-- Search of one subtree (the node itself, then its descendants) for the
first element with the given tag, in document (preorder) order. -/
def subtreeFind (tag : String) : Xml → Option Xml
  | .el t txt cs => if t = tag then some (.el t txt cs) else forestFind tag cs
/-- First element with the tag over a forest, searching the whole
subtree before moving to the next tree. -/
def forestFind (tag : String) : XmlForest → Option Xml
  | .nil => none
  | .cons x l =>
    match subtreeFind tag x with
    | some r => some r
    | none => forestFind tag l
end

/-- Embedding of `root.find(".//" + tag)`: first proper descendant with the tag, in
document (preorder) order, given the child list of the root. -/
def findDesc (tag : String) (cs : List Xml) : Option Xml :=
  cs.findSome? (subtreeFind tag)

/-- Embedding of `el.find(tag)`: first direct child with the tag. -/
def childFind (tag : String) (x : Xml) : Option Xml :=
  x.children.find? (fun c => c.tag = tag)

/-- Embedding of `dd_node.find("CAF/DA")` (line 81): first `DA` grandchild reached through
a `CAF` child, in document order. -/
def findCafDa (x : Xml) : Option Xml :=
  (x.children.filter (fun c => c.tag = "CAF")).findSome?
    (fun c => c.children.find? (fun d => d.tag = "DA"))

/-- Embedding of `_text(el, tag)` (lines 58-61): `node.text.strip() if node is not None
and node.text else None`. -/
def textTag (el : Xml) (tag : String) : Option PyStr :=
  match childFind tag el with
  | none => none
  | some node =>
    match node.text with
    | none => none
    | some t => if pyTruthy t then some (pyStrip t) else none

/-- Coercion `int(v) if v and v.isdigit() else v` (lines 87 and 89), lifted over the
optional field value. -/
def coerceDigits : Option PyStr → Option IntOrStr
  | none => none
  | some s =>
    some (if pyTruthy s && pyIsDigit s then .int (natOfDigits s) else .str s)

/-- Embedding of `parse_ted_payload` (lines 63-100) on the parse result of the payload
string (`none` = the `etree.fromstring` call raised, line 67-68). -/
def parse_ted_payload : Option Xml → Option InfoFactura
  | none => none
  | some root =>
    match findDesc "DD" root.children with
    | none => none
    | some dd_node =>
      let td := textTag dd_node "TD"
      let folio := textTag dd_node "F"
      let fecha_emision := textTag dd_node "FE"
      let monto_total := textTag dd_node "MNT"
      let rutEmisor := textTag dd_node "RE"
      let rutReceptor := textTag dd_node "RR"
      let razonSocialReceptor := textTag dd_node "RSR"
      let razonSocialEmisor :=
        match findCafDa dd_node with
        | some caf_node => textTag caf_node "RS"
        | none => some "No encontrada".data
      some
        { documento :=
            { tipo_dte := td
              folio := coerceDigits folio
              fecha_emision := fecha_emision
              monto_total := coerceDigits monto_total }
          emisor := { rut := rutEmisor, razon_social := razonSocialEmisor }
          receptor := { rut := rutReceptor, razon_social := razonSocialReceptor } }

/-! ## Barcode extractor loop (`obtener_info_factura_pdf`, lines 102-119)

A page is represented by the outcome of `_render_fullpage` followed by
`_decode_pdf417` on it: either an exception (`fail`) or the list of decoded
payload strings — each payload given by its XML parse result.  The source
wraps the whole page loop in one `try/except` that returns `None`, so the
first page failure aborts the function. -/

inductive PageScan where
  | fail : PageScan
  | ok (payloads : List (Option Xml)) : PageScan

def obtener_info_factura_pdf : List PageScan → Option InfoFactura
  | [] => none
  | .fail :: _ => none
  | .ok payloads :: rest =>
    match payloads with
    | [] => obtener_info_factura_pdf rest
    | p :: _ =>
      match parse_ted_payload p with
      | some info => some info
      | none => obtener_info_factura_pdf rest

/-! ## Normalizers (lines 123-160) -/

/-- Embedding of `_clean_amount` (lines 123-128): `re.sub` removing dollar and dot, `.strip()`, then
`int`.  `.error` models the `ValueError` that `int` raises; `.ok none` is
the early `return None` for a falsy argument. -/
def clean_amount (amount_str : Option PyStr) : Except Unit (Option Nat) :=
  match amount_str with
  | none => .ok none
  | some s =>
    if !pyTruthy s then .ok none
    else
      let cleaned_str := pyStrip (s.filter (fun c => !(c = '$' || c = '.')))
      match pyIntParse cleaned_str with
      | some n => .ok (some n)
      | none => .error ()

/-- The month table of `_normalize_date` (lines 137-141). -/
def monthsTable : List (String × String) :=
  [("enero", "01"), ("febrero", "02"), ("marzo", "03"), ("abril", "04"),
   ("mayo", "05"), ("junio", "06"), ("julio", "07"), ("agosto", "08"),
   ("septiembre", "09"), ("octubre", "10"), ("noviembre", "11"),
   ("diciembre", "12")]

/-- Lookup `months.get(month_name)` (line 145). -/
def monthLookup (m : PyStr) : Option PyStr :=
  (monthsTable.find? (fun p => p.1.data = m)).map (fun p => p.2.data)

def natToDigits (n : Nat) : PyStr := Nat.toDigits 10 n

/-- Two-digit zero padding (`{...:02d}`, and strftime `%m`/`%d`). -/
def pad2 (n : Nat) : PyStr := if n < 10 then '0' :: natToDigits n else natToDigits n

def isLeapYear (y : Nat) : Bool := y % 4 = 0 && (y % 100 != 0 || y % 400 = 0)

def daysInMonth (m y : Nat) : Nat :=
  if m = 2 then (if isLeapYear y then 29 else 28)
  else if m = 4 || m = 6 || m = 9 || m = 11 then 30 else 31

/-- Embedding of `datetime.strptime` with format d-m-Y followed by
`strftime` with format Y-m-d (lines 150-151):
`%d`/`%m` accept one or two digits in the ranges 1-31 / 1-12, `%Y` exactly
four digits, the whole string must be consumed, and the `datetime`
constructor additionally checks the calendar day bound and `year >= 1`;
`none` models the `ValueError`.  The output zero-pads month and day; the
year is printed without padding (identical to the input for the four-digit
years that can get here). -/
def strptimeDMY (l : PyStr) : Option PyStr :=
  match List.splitOn '-' l with
  | [d, m, y] =>
    if pyIsDigit d && d.length ≤ 2 && 1 ≤ natOfDigits d && natOfDigits d ≤ 31
        && pyIsDigit m && m.length ≤ 2 && 1 ≤ natOfDigits m && natOfDigits m ≤ 12
        && pyIsDigit y && y.length = 4 && 1 ≤ natOfDigits y
        && natOfDigits d ≤ daysInMonth (natOfDigits m) (natOfDigits y) then
      some (natToDigits (natOfDigits y) ++ '-' :: (pad2 (natOfDigits m) ++ '-' :: pad2 (natOfDigits d)))
    else none
  | _ => none

/-- Embedding of `_normalize_date` (lines 130-155).  Note the source strips its argument
(line 135) before anything else, and the final fallthrough returns that
stripped string. -/
def normalize_date (date_str0 : Option PyStr) : Option PyStr :=
  match date_str0 with
  | none => none
  | some ds0 =>
    let date_str := pyStrip ds0
    let fallthrough : PyStr :=
      match strptimeDMY date_str with
      | some iso => iso
      | none => date_str
    match reSearch patLongDate (pyLower date_str) with
    | some (caps, _, _) =>
      let day := getCap 1 caps
      let month_name := getCap 2 caps
      let year := getCap 3 caps
      match monthLookup month_name with
      | some month_number => some (year ++ '-' :: (month_number ++ '-' :: pad2 (natOfDigits day)))
      | none => some fallthrough
    | none => some fallthrough

/-! ## Heuristic text parser (`parse_text_payload`, lines 162-221)

Each local of the source function becomes one definition (the locals are
independent computations from `text`), and `parse_text_payload` assembles
them with the success check of the source and exception handling. -/

/-- Embedding of `_get_first_match` (lines 157-160): `match.group(1).strip()` or `None`. -/
def get_first_match (re : RE) (text : PyStr) : Option PyStr :=
  (reSearch re text).map (fun r => pyStrip (getCap 1 r.1))

/-- Python `a or b` on optional strings (`None` and `""` are falsy). -/
def pyOr (a b : Option PyStr) : Option PyStr := if pyTruthyOpt a then a else b

/-- Line 165: `ruts = re.findall(R\.?U\.?T\.?[:\s\n]+([\d\.]{8,12}-[\dkK]), text)`. -/
def rutsOf (text : PyStr) : List PyStr := reFindAll patRutLabeled text

/-- Line 166: `ruts[0] if len(ruts) > 0 else _get_first_match(RUT\.:..., text)`. -/
def rutEmisorOf (text : PyStr) : Option PyStr :=
  match rutsOf text with
  | r :: _ => some r
  | [] => get_first_match patRutDotColon text

/-- Line 167: `ruts[1] if len(ruts) > 1 else _get_first_match(Señor\(es\)..., text, re.DOTALL)`. -/
def rutReceptorOf (text : PyStr) : Option PyStr :=
  match rutsOf text with
  | _ :: r :: _ => some r
  | _ => get_first_match patSenoresRut text

/-- Lines 169-170: receiver company name, line variant or inline variant on
the text with newlines replaced by spaces. -/
def razonReceptorOf (text : PyStr) : Option PyStr :=
  pyOr (get_first_match patSenoresLine text)
    (get_first_match patSenoresInline
      (text.map (fun c => if c = '\n' then ' ' else c)))

/-- Lines 172-182: issuer company name; first line unless it starts like a
RUT label, else the line after "Fecha de Vencimiento" unless date-shaped. -/
def razonEmisorOf (text : PyStr) : Option PyStr :=
  let first_line := pyStrip (text.takeWhile (fun c => c != '\n'))
  let razon0 : Option PyStr :=
    if !reMatchStart patRutStart first_line then some first_line else none
  if pyTruthyOpt razon0 then razon0
  else
    match reSearch patFechaVenc text with
    | some (caps, _, _) =>
      let candidate := pyStrip (getCap 1 caps)
      if !reMatchStart patDDMMYYYY candidate then some candidate else razon0
    | none => razon0

/-- Line 184: document type by case-folded substring search. -/
def tipoDteOf (text : PyStr) : Option PyStr :=
  if hasSubstr "FACTURA EXENTA".data (pyUpper text) then some "34".data
  else if hasSubstr "FACTURA ELECTRÓNICA".data (pyUpper text) then some "33".data
  else none

/-- Line 185: folio. -/
def folioOf (text : PyStr) : Option PyStr :=
  pyOr (get_first_match patFolio text) (get_first_match patFolioFactura text)

/-- Lines 187-188: raw issue date. -/
def fechaRawOf (text : PyStr) : Option PyStr :=
  pyOr (get_first_match patFechaEmision text)
    (get_first_match patFechaDocumento text)

/-- Lines 190-191: all "Monto Total"/"Total" amount matches; the last one. -/
def montoRawOf (text : PyStr) : Option PyStr :=
  (reFindAll patMontoTotal text).getLast?

/-- Lines 193-197: glosa, DETALLES block or row-shaped fallback. -/
def glosaOf (text : PyStr) : Option PyStr :=
  let glosa0 := get_first_match patDetalles text
  if pyTruthyOpt glosa0 then glosa0
  else
    match reSearch patGlosaRow text with
    | some (caps, _, _) => some (pyStrip (getCap 1 caps))
    | none => glosa0

/-- Embedding of `parse_text_payload` (lines 162-221).  The success check is the line 199 test
`if not all([folio, monto_total]): return None`; the surrounding
`try/except` (lines 164, 219-221) turns the `ValueError` that `int(folio)`
(line 205) or `_clean_amount(monto_total)` (line 207) may raise into the
`None` of the function. -/
def parse_text_payload (text : PyStr) : Option InfoText :=
  let folio := folioOf text
  let monto_total := montoRawOf text
  if !(pyTruthyOpt folio && pyTruthyOpt monto_total) then none
  else
    match pyIntParse (folio.getD []), clean_amount monto_total with
    | some folioInt, .ok cleaned =>
      some
        { documento :=
            { tipo_dte := tipoDteOf text
              folio := some (.int folioInt)
              fecha_emision := normalize_date (fechaRawOf text)
              monto_total := cleaned.map .int }
          emisor := { rut := rutEmisorOf text, razon_social := razonEmisorOf text }
          receptor := { rut := rutReceptorOf text, razon_social := razonReceptorOf text }
          glosa := glosaOf text }
    | _, _ => none

/-! ## HTTP orchestrator (`procesar_pdf`, lines 225-280)

Inputs at the boundary: the `.pdf` filename check result, the page scans for
the barcode path, and the PyPDF2 text extraction outcome (`.error` = the
read raised, line 259-261; `.ok` = the concatenated page texts). -/

inductive ResultData where
  | barcode (i : InfoFactura) : ResultData
  | text (t : InfoText) : ResultData

inductive Response where
  | ok (d : ResultData) (source : String) : Response
  | httpError (status : Nat) : Response

/-- The JSON keys of the `data` dict of a successful response: the dict
literal of `parse_ted_payload` (lines 84-99) has `documento`, `emisor`,
`receptor`; the dict literal of `parse_text_payload` (lines 202-218) has
those plus `glosa`. -/
def dataKeys : ResultData → List String
  | .barcode _ => ["documento", "emisor", "receptor"]
  | .text _ => ["documento", "emisor", "receptor", "glosa"]

def procesar_pdf (filenameIsPdf : Bool) (pages : List PageScan)
    (textRes : Except Unit PyStr) : Response :=
  if !filenameIsPdf then .httpError 400
  else
    match obtener_info_factura_pdf pages with
    | some informacion => .ok (.barcode informacion) "barcode"
    | none =>
      match textRes with
      | .error _ => .httpError 500
      | .ok text_content =>
        if pyTruthy text_content then
          match parse_text_payload text_content with
          | some parsed_data => .ok (.text parsed_data) "text_extraction"
          | none => .httpError 404
        else .httpError 404

/-! ## Spec-side definition for the refinement claim C6 -/

/-- Modelled from the spec (section 4.1): `extract_rut_candidates(text)` —
"the ordered sequence of substrings matching an 8-12 digit block, optional
dot separators, a dash, and a trailing digit-or-K check character, in order
of first appearance in the text".  This is the BARE pattern
`[\d\.]{8,12}-[\dkK]`, with no label anchor; the scan of the code (line 165) is
compared against it. -/
def extract_rut_candidates (text : PyStr) : List PyStr :=
  reFindAll
    (.group 1 (RE.seqs [RE.repRange 8 12 clsDigDot, RE.ch '-', clsDigKk]))
    text

/-! ## Concrete fixtures used by several claims -/

/-- A canonical well-formed stamp (TED) XML tree: a `DD` data block with the
seven scalar fields and the nested `CAF/DA/RS` issuer-name path. -/
def mkStampXml (td f fe mnt re rr rsr rs : PyStr) : Xml :=
  .el "TED" none
    (.ofList
      [.el "DD" none
        (.ofList
          [.el "TD" (some td) .nil, .el "F" (some f) .nil,
           .el "FE" (some fe) .nil, .el "MNT" (some mnt) .nil,
           .el "RE" (some re) .nil, .el "RR" (some rr) .nil,
           .el "RSR" (some rsr) .nil,
           .el "CAF" none
             (.ofList [.el "DA" none (.ofList [.el "RS" (some rs) .nil])])])])

/-- Scenario A stamp: TD=33, F=1234, MNT=150000, RE=76123456-7, RR=11111111-1. -/
def stampA : Xml :=
  mkStampXml "33".data "1234".data "2024-03-12".data "150000".data
    "76123456-7".data "11111111-1".data "CLIENTE SA".data "PROVEEDOR SA".data

/-- The record `parse_ted_payload` produces for `stampA`. -/
def infoA : InfoFactura :=
  { documento :=
      { tipo_dte := some "33".data
        folio := some (.int 1234)
        fecha_emision := some "2024-03-12".data
        monto_total := some (.int 150000) }
    emisor := { rut := some "76123456-7".data, razon_social := some "PROVEEDOR SA".data }
    receptor := { rut := some "11111111-1".data, razon_social := some "CLIENTE SA".data } }

/-- A well-formed XML payload that is not a stamp (no `DD` block), so its
stamp parse fails. -/
def badXml : Xml := .el "OTRO" none (.ofList [.el "X" (some "1".data) .nil])

/-- Scenario B text: a "Monto Total" amount followed later by a "Total"
amount. -/
def textB : PyStr := "Monto Total $ 1.234.567\nTotal $ 999".data

/-- Two bare (unlabelled) RUTs and nothing else. -/
def textBareRuts : PyStr := "76123456-7 11111111-1".data

/-- Two labelled RUTs. -/
def textLabelledRuts : PyStr := "RUT: 76123456-7\nRUT: 11111111-1".data

/-- A text whose folio and amount both resolve, but whose amount contains a
comma, which `_clean_amount` does not remove. -/
def textComma : PyStr := "FACTURA ELECTRÓNICA\nNº 5\nTotal 1,5".data

/-- Scenario D text: document-type marker, an amount, but no folio pattern. -/
def textD : PyStr := "FACTURA ELECTRÓNICA\nTotal $ 999".data

/-- A minimal text the heuristic parser accepts. -/
def textOk : PyStr := "FACTURA ELECTRÓNICA\nNº 123\nTotal $ 999".data

/-- The record `parse_text_payload` produces for `textOk`. -/
def infoOk : InfoText :=
  { documento :=
      { tipo_dte := some "33".data
        folio := some (.int 123)
        fecha_emision := none
        monto_total := some (.int 999) }
    emisor := { rut := none, razon_social := some "FACTURA ELECTRÓNICA".data }
    receptor := { rut := none, razon_social := none }
    glosa := none }

/-- Whether a `_clean_amount` outcome is a successfully produced integer
(neither the falsy-input `None` nor a raised `ValueError`). -/
def cleanOkInt : Except Unit (Option Nat) → Bool
  | .ok (some _) => true
  | _ => false

/-- Whether a `_clean_amount` outcome avoided the exception. -/
def cleanNoRaise : Except Unit (Option Nat) → Bool
  | .ok _ => true
  | .error _ => false

/-! ## Claims -/

/-- C1, counterexample.  The claim says the orchestrator "attempts a stamp
parse for each decoded payload on a page, and on the first payload whose
stamp parse succeeds it returns immediately".  False: the loop (line 111)
only ever parses `payloads[0]`.  Here the payload list of page 1 holds a
non-stamp payload followed by a perfectly parsable stamp, yet the barcode
extractor returns no result at all. -/
theorem C1_counterexample :
    parse_ted_payload (some badXml) = none ∧
    parse_ted_payload (some stampA) = some infoA ∧
    obtener_info_factura_pdf [.ok [some badXml, some stampA]] = none :=
  ⟨rfl, rfl, rfl⟩

/-- C1, amended.  The orchestrator tries the barcode path strictly before
the text path, processing pages in document order, but attempts a stamp
parse only for the FIRST decoded payload of each page that has any; on the
first page whose first payload parses it returns immediately with source
"barcode", and the text path can only run when the barcode scan produced no
result.  In particular a 3-page PDF with payloads only on page 3 (whose
first payload parses) yields the barcode result whatever the text-path
input is. -/
theorem C1_amended :
    (∀ rest, obtener_info_factura_pdf (.ok [] :: rest) =
      obtener_info_factura_pdf rest) ∧
    (∀ p ps rest i, parse_ted_payload p = some i →
      obtener_info_factura_pdf (.ok (p :: ps) :: rest) = some i) ∧
    (∀ p ps rest, parse_ted_payload p = none →
      obtener_info_factura_pdf (.ok (p :: ps) :: rest) =
        obtener_info_factura_pdf rest) ∧
    (∀ pages tr i, obtener_info_factura_pdf pages = some i →
      procesar_pdf true pages tr = .ok (.barcode i) "barcode") ∧
    (∀ tr, procesar_pdf true [.ok [], .ok [], .ok [some stampA]] tr =
      .ok (.barcode infoA) "barcode") := by
  refine ⟨fun rest => rfl, ?_, ?_, ?_, fun tr => rfl⟩
  · intro p ps rest i h
    simp [obtener_info_factura_pdf, h]
  · intro p ps rest h
    simp [obtener_info_factura_pdf, h]
  · intro pages tr i h
    simp [procesar_pdf, h]

/-- C1, witness for the amended theorem at a concrete one-page input. -/
theorem C1_witness :
    procesar_pdf true [.ok [some stampA]] (.ok []) =
      .ok (.barcode infoA) "barcode" :=
  C1_amended.2.2.2.1 [.ok [some stampA]] (.ok []) infoA rfl

/-- C2, counterexample.  The claim says a rendering/decoding failure on page
`i` never prevents a later page from being decoded.  False: the
`try/except` (lines 104, 115-117) wraps the whole page loop, so the first
page failure aborts the function — here page 2 carries a parsable stamp but
the extractor returns no result. -/
theorem C2_counterexample :
    parse_ted_payload (some stampA) = some infoA ∧
    obtener_info_factura_pdf [.fail, .ok [some stampA]] = none :=
  ⟨rfl, rfl⟩

/-- C2, amended.  A rendering or decoding failure on a page is caught at the
document level, not the page level: the extractor logs it and returns
no-result immediately, so no later page is rendered or decoded, and the
orchestrator falls through to the text path. -/
theorem C2_amended :
    (∀ rest, obtener_info_factura_pdf (PageScan.fail :: rest) = none) ∧
    procesar_pdf true [PageScan.fail, PageScan.ok [some stampA]] (.ok textOk) =
      .ok (.text infoOk) "text_extraction" :=
  ⟨fun _ => rfl, rfl⟩

/-- C3, confirmed.  For every well-formed stamp XML whose `DD` block carries
the fields TD, F, FE, MNT, RE, RR, RSR and the nested CAF/DA/RS issuer name
(field values nonempty and whitespace-trimmed, as stamp values are), the
stamp payload parser recovers exactly those values in the corresponding
output fields, and folio / monto_total are coerced to integers exactly when
the raw string is purely numeric digits, the raw string being preserved
otherwise. -/
theorem C3_stamp_roundtrip (td f fe mnt re rr rsr rs : PyStr)
    (htd1 : pyTruthy td = true) (htd2 : pyStrip td = td)
    (hf1 : pyTruthy f = true) (hf2 : pyStrip f = f)
    (hfe1 : pyTruthy fe = true) (hfe2 : pyStrip fe = fe)
    (hmnt1 : pyTruthy mnt = true) (hmnt2 : pyStrip mnt = mnt)
    (hre1 : pyTruthy re = true) (hre2 : pyStrip re = re)
    (hrr1 : pyTruthy rr = true) (hrr2 : pyStrip rr = rr)
    (hrsr1 : pyTruthy rsr = true) (hrsr2 : pyStrip rsr = rsr)
    (hrs1 : pyTruthy rs = true) (hrs2 : pyStrip rs = rs) :
    parse_ted_payload (some (mkStampXml td f fe mnt re rr rsr rs)) =
      some
        { documento :=
            { tipo_dte := some td
              folio := some (if pyIsDigit f then .int (natOfDigits f) else .str f)
              fecha_emision := some fe
              monto_total :=
                some (if pyIsDigit mnt then .int (natOfDigits mnt) else .str mnt) }
          emisor := { rut := some re, razon_social := some rs }
          receptor := { rut := some rr, razon_social := some rsr } } := by
  simp [parse_ted_payload, mkStampXml, findDesc, subtreeFind, forestFind,
    XmlForest.ofList, XmlForest.toList, Xml.children, Xml.tag, Xml.text,
    childFind, findCafDa, textTag, coerceDigits,
    htd1, htd2, hf1, hf2, hfe1, hfe2, hmnt1, hmnt2, hre1, hre2,
    hrr1, hrr2, hrsr1, hrsr2, hrs1, hrs2]

/-- C3, witness: Scenario A — TD=33, F=1234, MNT=150000, RE=76123456-7,
RR=11111111-1 gives tipo_dte "33", integer folio 1234, integer monto_total
150000. -/
theorem C3_witness : parse_ted_payload (some stampA) = some infoA := by
  have h := C3_stamp_roundtrip "33".data "1234".data "2024-03-12".data
      "150000".data "76123456-7".data "11111111-1".data "CLIENTE SA".data
      "PROVEEDOR SA".data
      (by decide) (by decide) (by decide) (by decide) (by decide) (by decide)
      (by decide) (by decide) (by decide) (by decide) (by decide) (by decide)
      (by decide) (by decide) (by decide) (by decide)
  simpa [stampA, infoA, pyIsDigit, natOfDigits] using h

/-- C9, counterexample.  The claim says every successful result, from either
path, contains all of documento, emisor, receptor AND glosa.  False: the
dict a successful barcode-path call returns (built at lines 84-99) has no
`glosa` key at all — only the text-path dict (lines 202-218) has one. -/
theorem C9_counterexample :
    procesar_pdf true [.ok [some stampA]] (.ok []) =
      .ok (.barcode infoA) "barcode" ∧
    ¬ "glosa" ∈ dataKeys (.barcode infoA) :=
  ⟨rfl, by decide⟩

/-- C9, amended.  Every successful result is one of exactly two fully-formed
shapes: a barcode-path result whose data carries the keys documento, emisor
and receptor (no glosa key), or a text-path result carrying those three
plus glosa (glosa possibly null); no partial or ambiguous result is ever
returned. -/
theorem C9_amended (ipdf : Bool) (pages : List PageScan) (tr : Except Unit PyStr)
    (d : ResultData) (src : String)
    (h : procesar_pdf ipdf pages tr = .ok d src) :
    (src = "barcode" ∧ dataKeys d = ["documento", "emisor", "receptor"]) ∨
    (src = "text_extraction" ∧
      dataKeys d = ["documento", "emisor", "receptor", "glosa"]) := by
  unfold procesar_pdf at h
  cases ipdf with
  | false => simp at h
  | true =>
    simp only [Bool.not_true, Bool.false_eq_true, if_false] at h
    cases ho : obtener_info_factura_pdf pages with
    | some info =>
      rw [ho] at h
      injection h with h1 h2
      subst h1; subst h2
      exact Or.inl ⟨rfl, rfl⟩
    | none =>
      rw [ho] at h
      dsimp only at h
      cases tr with
      | error e => simp at h
      | ok txt =>
        dsimp only at h
        by_cases ht : pyTruthy txt = true
        · rw [if_pos ht] at h
          cases hp : parse_text_payload txt with
          | some parsed =>
            rw [hp] at h
            injection h with h1 h2
            subst h1; subst h2
            exact Or.inr ⟨rfl, rfl⟩
          | none => rw [hp] at h; simp at h
        · rw [if_neg ht] at h; simp at h

/-- C9, witness for the amended theorem at a concrete barcode-path call. -/
theorem C9_witness :
    ("barcode" = "barcode" ∧
      dataKeys (.barcode infoA) = ["documento", "emisor", "receptor"]) ∨
    ("barcode" = "text_extraction" ∧
      dataKeys (.barcode infoA) = ["documento", "emisor", "receptor", "glosa"]) :=
  C9_amended true [.ok [some stampA]] (.ok []) (.barcode infoA) "barcode" rfl

/-- C5, confirmed.  For every input text the total amount is the LAST
occurrence, in document order, among all matches of "Monto Total"/"Total"
followed by an amount expression; and on the Scenario B text — "Monto Total $
1.234.567" followed later by "Total $ 999" — the matches are exactly those
two amounts, the selected raw amount is "999", and cleaning turns it into
the integer 999. -/
theorem C5_last_total :
    (∀ text : PyStr, montoRawOf text = (reFindAll patMontoTotal text).getLast?) ∧
    reFindAll patMontoTotal textB = ["1.234.567".data, "999".data] ∧
    montoRawOf textB = some "999".data ∧
    clean_amount (montoRawOf textB) = .ok (some 999) :=
  ⟨fun _ => rfl, rfl, rfl, rfl⟩

/-- C6, counterexample.  The claim says RUT extraction scans for all matches
of the GENERIC (bare) RUT pattern and, with at least two matches, takes the
first as issuer and the second as receiver.  False: the scan (line 165)
requires a preceding "RUT" label.  This text carries two bare RUTs — the
spec-modelled `extract_rut_candidates` finds both — yet the scan in the code
finds none and both assigned RUTs come out `None`, not the first and second
candidates. -/
theorem C6_counterexample :
    extract_rut_candidates textBareRuts =
      ["76123456-7".data, "11111111-1".data] ∧
    rutsOf textBareRuts = [] ∧
    rutEmisorOf textBareRuts = none ∧
    rutReceptorOf textBareRuts = none :=
  ⟨rfl, rfl, rfl, rfl⟩

/-- C6, amended.  RUT extraction scans the full text for all matches of the
LABELLED RUT pattern — "RUT" with optional dots followed by colon or
whitespace, then the 8-12 character digit-or-dot block, dash and check
character — in order of first appearance; the first match is the issuer RUT
and the second the receiver RUT, and the labelled fallbacks ("RUT.:" for
the issuer, the "Señor(es)…RUT" window for the receiver) are used only when
fewer matches exist (no match for the issuer, fewer than two for the
receiver). -/
theorem C6_amended :
    (∀ text r rest, rutsOf text = r :: rest → rutEmisorOf text = some r) ∧
    (∀ text r0 r rest, rutsOf text = r0 :: r :: rest →
      rutReceptorOf text = some r) ∧
    (∀ text, rutsOf text = [] →
      rutEmisorOf text = get_first_match patRutDotColon text) ∧
    (∀ text, (rutsOf text).length ≤ 1 →
      rutReceptorOf text = get_first_match patSenoresRut text) ∧
    rutsOf textLabelledRuts = ["76123456-7".data, "11111111-1".data] := by
  refine ⟨?_, ?_, ?_, ?_, rfl⟩
  · intro text r rest h; simp [rutEmisorOf, h]
  · intro text r0 r rest h; simp [rutReceptorOf, h]
  · intro text h; simp [rutEmisorOf, h]
  · intro text h
    rcases hr : rutsOf text with _ | ⟨a, _ | ⟨b, t⟩⟩
    · simp [rutReceptorOf, hr]
    · simp [rutReceptorOf, hr]
    · rw [hr] at h; simp at h

/-- C6, witness for the amended theorem on a two-labelled-RUT text. -/
theorem C6_witness :
    rutEmisorOf textLabelledRuts = some "76123456-7".data :=
  C6_amended.1 textLabelledRuts "76123456-7".data ["11111111-1".data] rfl

/-- C4, counterexample.  The claim says the heuristic text parser succeeds
if and only if both folio and total amount resolve to non-null values.
False in the only-if→if direction: on this text both resolve — folio "5"
and amount "1,5" — yet the parse returns no-result, because `_clean_amount`
removes only "$" and "." (line 127) and `int("1,5")` raises, which the
`except` turns into `None`. -/
theorem C4_counterexample :
    folioOf textComma = some "5".data ∧
    montoRawOf textComma = some "1,5".data ∧
    parse_text_payload textComma = none :=
  ⟨rfl, rfl, rfl⟩

/-- C4, amended.  The heuristic text parser succeeds if and only if folio
and the total amount resolve to non-null (truthy) values AND both survive
integer coercion (the amount, after removing "$" and ".", must be a pure
digit string — a comma or an all-separator amount makes the whole parse
fail); all other fields may be null in a successful result, and failure is
always the `None` no-result, never an exception to the caller (the
function body is wrapped in `try/except`, modelled by the total function
returning `Option`).  On the Scenario D text — a document-type marker but no
folio pattern — the parse fails with a null folio even though the type
marker was extractable. -/
theorem C4_amended :
    (∀ text : PyStr,
      (parse_text_payload text).isSome =
        (pyTruthyOpt (folioOf text) && pyTruthyOpt (montoRawOf text) &&
         (pyIntParse ((folioOf text).getD [])).isSome &&
         cleanNoRaise (clean_amount (montoRawOf text)))) ∧
    tipoDteOf textD = some "33".data ∧
    folioOf textD = none ∧
    parse_text_payload textD = none := by
  refine ⟨?_, rfl, rfl, rfl⟩
  intro text
  unfold parse_text_payload
  cases h1 : pyTruthyOpt (folioOf text) <;>
    cases h2 : pyTruthyOpt (montoRawOf text) <;> simp [h1, h2]
  cases h3 : pyIntParse ((folioOf text).getD []) <;>
    cases h4 : clean_amount (montoRawOf text) <;>
      simp [h3, h4, cleanNoRaise]

/-- C10, confirmed.  In every successful text-path result both
documento.folio and documento.monto_total are integers, never strings: the
folio is captured by a digits-only pattern and coerced with `int`, and the
amount must survive `_clean_amount` integer cleaning for the parse to
succeed at all (a cleaning failure aborts the whole parse to no-result),
even though the data model allows integer-or-string there. -/
theorem C10_text_path_integers (text : PyStr) (r : InfoText)
    (h : parse_text_payload text = some r) :
    (∃ n, r.documento.folio = some (.int n)) ∧
    (∃ m, r.documento.monto_total = some (.int m)) := by
  unfold parse_text_payload at h
  cases h1 : pyTruthyOpt (folioOf text) <;>
    cases h2 : pyTruthyOpt (montoRawOf text) <;> simp [h1, h2] at h
  rcases h3 : pyIntParse ((folioOf text).getD []) with _ | folioInt <;>
    rw [h3] at h
  · simp at h
  rcases h4 : clean_amount (montoRawOf text) with e | cleaned <;> rw [h4] at h
  · simp at h
  have hcl : ∃ m, cleaned = some m := by
    rcases hm : montoRawOf text with _ | s
    · rw [hm] at h2; simp [pyTruthyOpt] at h2
    · rw [hm] at h2 h4
      simp only [pyTruthyOpt] at h2
      unfold clean_amount at h4
      dsimp only at h4
      rw [h2] at h4
      simp only [Bool.not_true, Bool.false_eq_true, if_false] at h4
      rcases h5 : pyIntParse (pyStrip (s.filter (fun c => !(c = '$' || c = '.')))) with _ | n <;>
        rw [h5] at h4
      · simp at h4
      · exact ⟨n, by injection h4 with hh; exact hh.symm⟩
  obtain ⟨m, hmm⟩ := hcl
  subst hmm
  dsimp only at h
  injection h with hr
  subst hr
  exact ⟨⟨folioInt, rfl⟩, ⟨m, rfl⟩⟩

/-- C10, witness: on a concrete accepted text the result has integer folio
123 and integer amount 999. -/
theorem C10_witness :
    (∃ n, infoOk.documento.folio = some (.int n)) ∧
    (∃ m, infoOk.documento.monto_total = some (.int m)) :=
  C10_text_path_integers textOk infoOk rfl

/-- A digit is none of the whitespace characters `str.strip` removes. -/
theorem digit_not_pyspace (c : Char) (h : c.isDigit = true) : isPySpace c = false := by
  by_cases h1 : c = ' '
  · subst h1; exact absurd h (by decide)
  by_cases h2 : c = '\t'
  · subst h2; exact absurd h (by decide)
  by_cases h3 : c = '\n'
  · subst h3; exact absurd h (by decide)
  by_cases h4 : c = '\r'
  · subst h4; exact absurd h (by decide)
  by_cases h5 : c = '\x0b'
  · subst h5; exact absurd h (by decide)
  by_cases h6 : c = '\x0c'
  · subst h6; exact absurd h (by decide)
  simp [isPySpace, h1, h2, h3, h4, h5, h6]

theorem dropWhile_pyspace_of_digits (l : PyStr) (h : ∀ c ∈ l, c.isDigit = true) :
    l.dropWhile isPySpace = l := by
  cases l with
  | nil => rfl
  | cons a t =>
    rw [List.dropWhile_cons, digit_not_pyspace a (h a (List.mem_cons_self a t))]
    simp

/-- Stripping an all-digit string is the identity. -/
theorem pyStrip_of_digits (l : PyStr) (h : ∀ c ∈ l, c.isDigit = true) :
    pyStrip l = l := by
  unfold pyStrip
  rw [dropWhile_pyspace_of_digits l h,
    dropWhile_pyspace_of_digits l.reverse (fun c hc => h c (List.mem_reverse.mp hc)),
    List.reverse_reverse]

/-- On digit/dollar/dot strings, removing "$" and "." keeps exactly the
digits. -/
theorem filter_dollar_dot (s : PyStr)
    (hdom : ∀ c ∈ s, c.isDigit = true ∨ c = '$' ∨ c = '.') :
    s.filter (fun c => !(c = '$' || c = '.')) = s.filter Char.isDigit := by
  apply List.filter_congr
  intro c hc
  rcases hdom c hc with hd | h4 | h7
  · have hne1 : c ≠ '$' := by rintro rfl; exact absurd hd (by decide)
    have hne2 : c ≠ '.' := by rintro rfl; exact absurd hd (by decide)
    simp [hd, hne1, hne2]
  · subst h4; simp
  · subst h7; simp

/-- C8, confirmed.  For every digit string decorated with the currency
symbol "$" and/or the thousands-separator "." (the characters this layout
uses and the cleaner removes), `_clean_amount` strips the decorations and
returns the integer formed by the remaining digits, and it fails to
produce an integer — the falsy-input `None` or the `int` `ValueError` —
exactly when no digits remain after cleaning. -/
theorem C8_clean_amount (s : PyStr)
    (hdom : ∀ c ∈ s, c.isDigit = true ∨ c = '$' ∨ c = '.') :
    (cleanOkInt (clean_amount (some s)) = !(s.filter Char.isDigit).isEmpty) ∧
    ((s.filter Char.isDigit).isEmpty = false →
      clean_amount (some s) = .ok (some (natOfDigits (s.filter Char.isDigit)))) := by
  have hfil : ∀ c ∈ s.filter Char.isDigit, c.isDigit = true := by
    intro c hc
    exact (List.mem_filter.mp hc).2
  have hkey : clean_amount (some s) =
      (if !pyTruthy s then .ok none
       else
        match pyIntParse (s.filter Char.isDigit) with
        | some n => .ok (some n)
        | none => .error ()) := by
    unfold clean_amount
    dsimp only
    rw [filter_dollar_dot s hdom, pyStrip_of_digits _ hfil]
  cases hs : s with
  | nil =>
    refine ⟨rfl, ?_⟩
    intro hco
    exact absurd hco (by decide)
  | cons a t =>
    rw [← hs]
    have htr : pyTruthy s = true := by subst hs; rfl
    rw [hkey, htr]
    simp only [Bool.not_true, Bool.false_eq_true, if_false]
    unfold pyIntParse pyIsDigit
    rw [List.all_eq_true.mpr hfil]
    cases hemp : (s.filter Char.isDigit).isEmpty with
    | true => simp [hemp, cleanOkInt]
    | false => simp [hemp, cleanOkInt]

/-- C8, witness: "$1.234" cleans to the integer 1234. -/
theorem C8_witness : clean_amount (some "$1.234".data) = .ok (some 1234) := by
  have h := (C8_clean_amount "$1.234".data (by decide)).2 (by decide)
  rw [h]
  exact congrArg (fun n => (Except.ok (some n) : Except Unit (Option Nat)))
    (by decide)

/-- C7, counterexample.  The claim says any string matching neither date
shape is returned unchanged.  False: `_normalize_date` strips its argument
first (line 135) and the final fallthrough returns the STRIPPED string, so
a whitespace-padded non-date comes back altered. -/
theorem C7_counterexample :
    normalize_date (some " not a date ".data) = some "not a date".data ∧
    "not a date".data ≠ " not a date ".data :=
  ⟨rfl, by decide⟩

/-- C7, amended.  Date normalization maps the long Spanish form
"D de month de YYYY" (for each of the twelve table months enero…diciembre)
and the short numeric DD-MM-YYYY form (under calendar rules: an invalid
calendar day like 31-04 passes through, a valid leap day like 29-02-2024
converts) to zero-padded ISO YYYY-MM-DD, and returns any string matching
neither shape stripped of surrounding whitespace but otherwise unchanged;
it never raises (the embedded function is total).  In particular
"12 de marzo de 2024" gives "2024-03-12", "05-11-2023" gives "2023-11-05",
and "not a date" passes through unchanged. -/
theorem C7_amended :
    normalize_date (some "12 de marzo de 2024".data) = some "2024-03-12".data ∧
    normalize_date (some "05-11-2023".data) = some "2023-11-05".data ∧
    normalize_date (some "not a date".data) = some "not a date".data ∧
    (∀ p ∈ monthsTable,
      normalize_date (some (("7 de ".data ++ p.1.data) ++ " de 1999".data)) =
        some (("1999-".data ++ p.2.data) ++ "-07".data)) ∧
    normalize_date (some "31-04-2023".data) = some "31-04-2023".data ∧
    normalize_date (some "29-02-2024".data) = some "2024-02-29".data ∧
    (∀ ds : PyStr, reSearch patLongDate (pyLower (pyStrip ds)) = none →
      strptimeDMY (pyStrip ds) = none →
      normalize_date (some ds) = some (pyStrip ds)) := by
  refine ⟨rfl, rfl, rfl, by decide, rfl, rfl, ?_⟩
  intro ds h1 h2
  unfold normalize_date
  dsimp only
  rw [h1, h2]

/-- C7, witness for the general fallthrough clause of the amended theorem. -/
theorem C7_witness : normalize_date (some "sin fecha".data) = some "sin fecha".data :=
  C7_amended.2.2.2.2.2.2 "sin fecha".data rfl rfl
